import Mathlib

/-!
Shallow embedding of `rasa/nlu/train.py`: the training-run orchestration
coordinator.  External collaborators (configuration loader, `Trainer`
construction, data loaders, persistor resolution, the training engine and
the persistence step) are modelled as an environment `Env` of functions
returning `Except PyException _`, mirroring the fact that every Python call
may raise.  `train` additionally threads a trace of collaborator-invocation
events so that ordering and absence-of-invocation properties can be stated.
-/

/-- An opaque validated configuration object (`RasaNLUModelConfig`); only its
`language` field is read by the coordinator. -/
structure Config where
  language : String
  tag : Nat
deriving DecidableEq

structure Trainer where
  tag : Nat
deriving DecidableEq

structure Interpreter where
  tag : Nat
deriving DecidableEq

structure Persistor where
  tag : Nat
deriving DecidableEq

structure TrainingData where
  tag : Nat
deriving DecidableEq

structure EndpointConfig where
  url : String
deriving DecidableEq

structure ComponentBuilder where
  tag : Nat
deriving DecidableEq

/-- The open-ended `**kwargs` bag forwarded verbatim to the engine. -/
abbrev Kwargs := List (String × String)

/-- A Python exception value: its class name and its `args` tuple
(modelled as a list of strings, the descriptive arguments). -/
structure PyException where
  name : String
  args : List String
deriving DecidableEq

/-- The `IndexError` raised by Python when indexing `args[0]` on an empty
`args` tuple. -/
def indexError : PyException :=
  ⟨"IndexError", ["tuple index out of range"]⟩

/-- The `TrainingException` object: `failed_target_project` is set
unconditionally; `message` is `none` when the attribute was never assigned
(the `exception=None` path of `__init__` skips the assignment). -/
structure TrainingException where
  failed_target_project : Option String
  message : Option String
deriving DecidableEq

/-- `TrainingException.__init__`: sets `failed_target_project`, and, when an
`exception` is given, sets `message := exception.args[0]`.  The unguarded
index raises `IndexError` when the args tuple is empty, so construction is
fallible. -/
def TrainingException.init (failed_target_project : Option String)
    (exception : Option PyException) : Except PyException TrainingException :=
  match exception with
  | none => Except.ok ⟨failed_target_project, none⟩
  | some e =>
    match e.args with
    | [] => Except.error indexError
    | a :: _ => Except.ok ⟨failed_target_project, some a⟩

/-- `nlu_config : Union[Text, RasaNLUModelConfig]` — either a string
reference to be loaded or an already-resolved configuration object. -/
inductive ConfigInput where
  | reference (s : String)
  | resolved (c : Config)
deriving DecidableEq

/-- Events recording which collaborator calls a run performs, in order. -/
inductive Event where
  | configLoad (ref : String)
  | trainerNew
  | getPersistor (storage : String)
  | loadDataFromEndpoint
  | loadData (path : String)
  | engineTrain
  | persist (path : String)
deriving DecidableEq

/-- The collaborators of the coordinator.  Each call may raise, hence
returns `Except PyException _`. -/
structure Env where
  configLoad : String → Except PyException Config
  trainerNew : Config → Option ComponentBuilder → Except PyException Trainer
  getPersistor : String → Except PyException Persistor
  loadDataFromEndpoint : EndpointConfig → String → Except PyException TrainingData
  loadData : String → String → Except PyException TrainingData
  trainerTrain : Trainer → TrainingData → Kwargs → Except PyException Interpreter
  trainerPersist : Trainer → String → Option Persistor → Option String →
    Except PyException String

/-- The `isinstance(nlu_config, str)` branch at the top of `train`: a string
reference is loaded through `config.load`; an already-resolved object is
passed through unchanged, with no loader call. -/
def resolve_config (env : Env) (nlu_config : ConfigInput) :
    Except PyException Config :=
  match nlu_config with
  | ConfigInput.reference s => env.configLoad s
  | ConfigInput.resolved c => Except.ok c

/-- The collaborator calls the configuration-resolution branch performs:
a `config.load` call for a string reference, nothing for an object. -/
def resolve_config_events (nlu_config : ConfigInput) : List Event :=
  match nlu_config with
  | ConfigInput.reference s => [Event.configLoad s]
  | ConfigInput.resolved _ => []

/-- `create_persistor`: if a storage identifier is given, resolve it via
`get_persistor` (which may raise); otherwise return `None` with no call. -/
def create_persistor (env : Env) (persistor : Option String) :
    Except PyException (Option Persistor) :=
  match persistor with
  | some s => (env.getPersistor s).map some
  | none => Except.ok none

/-- The collaborator calls `create_persistor` performs. -/
def create_persistor_events (persistor : Option String) : List Event :=
  match persistor with
  | some s => [Event.getPersistor s]
  | none => []

/-- The training-data selector inside `train`: a non-`None`
`training_data_endpoint` takes precedence and is loaded via
`load_data_from_endpoint`; otherwise the local `data` path is loaded via
`load_data`.  Both receive the resolved configuration's language. -/
def select_training_data (env : Env) (training_data_endpoint : Option EndpointConfig)
    (data : String) (language : String) :
    Except PyException TrainingData :=
  match training_data_endpoint with
  | some ep => env.loadDataFromEndpoint ep language
  | none => env.loadData data language

/-- The collaborator call the training-data selector performs. -/
def select_training_data_events (training_data_endpoint : Option EndpointConfig)
    (data : String) : List Event :=
  match training_data_endpoint with
  | some _ => [Event.loadDataFromEndpoint]
  | none => [Event.loadData data]

/-- `train`: resolve configuration, construct the trainer, construct the
persistor, acquire training data, run the engine, and — only when `path` is
truthy (non-`None` and non-empty) — persist.  Every collaborator failure is
returned as-is; `train` itself catches nothing.  The second component is the
trace of collaborator calls made. -/
def train (env : Env) (nlu_config : ConfigInput) (data : String)
    (path : Option String) (fixed_model_name : Option String)
    (storage : Option String) (component_builder : Option ComponentBuilder)
    (training_data_endpoint : Option EndpointConfig) (kwargs : Kwargs) :
    Except PyException (Trainer × Interpreter × Option String) × List Event :=
  let ev0 := resolve_config_events nlu_config
  match resolve_config env nlu_config with
  | Except.error e => (Except.error e, ev0)
  | Except.ok nluConfig =>
    match env.trainerNew nluConfig component_builder with
    | Except.error e => (Except.error e, ev0 ++ [Event.trainerNew])
    | Except.ok trainer =>
      let evP := create_persistor_events storage
      match create_persistor env storage with
      | Except.error e =>
        (Except.error e, ev0 ++ [Event.trainerNew] ++ evP)
      | Except.ok persistor =>
        let evD := select_training_data_events training_data_endpoint data
        match select_training_data env training_data_endpoint data nluConfig.language with
        | Except.error e =>
          (Except.error e, ev0 ++ [Event.trainerNew] ++ evP ++ evD)
        | Except.ok training_data =>
          match env.trainerTrain trainer training_data kwargs with
          | Except.error e =>
            (Except.error e,
              ev0 ++ [Event.trainerNew] ++ evP ++ evD ++ [Event.engineTrain])
          | Except.ok interpreter =>
            match path with
            | none =>
              (Except.ok (trainer, interpreter, none),
                ev0 ++ [Event.trainerNew] ++ evP ++ evD ++ [Event.engineTrain])
            | some p =>
              if p.isEmpty then
                (Except.ok (trainer, interpreter, none),
                  ev0 ++ [Event.trainerNew] ++ evP ++ evD ++ [Event.engineTrain])
              else
                match env.trainerPersist trainer p persistor fixed_model_name with
                | Except.error e =>
                  (Except.error e,
                    ev0 ++ [Event.trainerNew] ++ evP ++ evD ++
                      [Event.engineTrain, Event.persist p])
                | Except.ok persisted_path =>
                  (Except.ok (trainer, interpreter, some persisted_path),
                    ev0 ++ [Event.trainerNew] ++ evP ++ evD ++
                      [Event.engineTrain, Event.persist p])

/-- What `do_train_in_worker` ends with: either the `persisted_path`, or a
raised error — normally the translated `TrainingException`, but a bare
Python exception when the translation itself raises. -/
inductive WorkerError where
  | trainingException (te : TrainingException)
  | py (e : PyException)
deriving DecidableEq

/-- `do_train_in_worker`: calls `train` with the same parameters (no
endpoint, no kwargs), returns only the third component on success, and on
any failure constructs `TrainingException(path, e)` and raises it — unless
that construction itself raises (empty `args`), in which case the
`IndexError` escapes instead. -/
def do_train_in_worker (env : Env) (cfg : ConfigInput) (data : String)
    (path : Option String) (fixed_model_name : Option String)
    (storage : Option String) (component_builder : Option ComponentBuilder) :
    Except WorkerError (Option String) × List Event :=
  match train env cfg data path fixed_model_name storage component_builder none [] with
  | (Except.ok (_, _, persisted_path), evs) => (Except.ok persisted_path, evs)
  | (Except.error e, evs) =>
    match TrainingException.init path (some e) with
    | Except.ok te => (Except.error (WorkerError.trainingException te), evs)
    | Except.error idx => (Except.error (WorkerError.py idx), evs)

/-! Concrete environments used to exercise the coordinator. -/

def cfg0 : Config := ⟨"en", 0⟩

/-- An environment where every collaborator succeeds; persistence returns
the output path with a `/model` suffix. -/
def envOk : Env :=
  ⟨fun _ => Except.ok cfg0,
   fun _ _ => Except.ok ⟨1⟩,
   fun _ => Except.ok ⟨2⟩,
   fun _ _ => Except.ok ⟨3⟩,
   fun _ _ => Except.ok ⟨4⟩,
   fun _ _ _ => Except.ok ⟨5⟩,
   fun _ p _ _ => Except.ok (p ++ "/model")⟩

/-- Like `envOk`, but loading local data raises a `ValueError` with an
empty `args` tuple. -/
def envNoArgs : Env :=
  ⟨envOk.configLoad, envOk.trainerNew, envOk.getPersistor,
   envOk.loadDataFromEndpoint,
   fun _ _ => Except.error ⟨"ValueError", []⟩,
   envOk.trainerTrain, envOk.trainerPersist⟩

/-- Like `envOk`, but loading local data raises a `ValueError` whose first
argument is the empty string. -/
def envEmptyArg : Env :=
  ⟨envOk.configLoad, envOk.trainerNew, envOk.getPersistor,
   envOk.loadDataFromEndpoint,
   fun _ _ => Except.error ⟨"ValueError", [""]⟩,
   envOk.trainerTrain, envOk.trainerPersist⟩

/-- Like `envOk`, but the engine's `train` step raises a domain error with
message "bad feature X". -/
def envTrainFails : Env :=
  ⟨envOk.configLoad, envOk.trainerNew, envOk.getPersistor,
   envOk.loadDataFromEndpoint, envOk.loadData,
   fun _ _ _ => Except.error ⟨"DomainError", ["bad feature X"]⟩,
   envOk.trainerPersist⟩

/-- Like `envOk`, but the storage backend identifier is unrecognized:
`get_persistor` raises. -/
def envBadBackend : Env :=
  ⟨envOk.configLoad, envOk.trainerNew,
   fun s => Except.error ⟨"PersistorResolutionError", [s]⟩,
   envOk.loadDataFromEndpoint, envOk.loadData,
   envOk.trainerTrain, envOk.trainerPersist⟩

example :
    train envOk (ConfigInput.resolved cfg0) "d" (some "out") none none none none [] =
      (Except.ok (⟨1⟩, ⟨5⟩, some "out/model"),
       [Event.trainerNew, Event.loadData "d", Event.engineTrain, Event.persist "out"]) := by
  rfl

example :
    do_train_in_worker envNoArgs (ConfigInput.resolved cfg0) "d" (some "out") none none none =
      (Except.error (WorkerError.py indexError),
       [Event.trainerNew, Event.loadData "d"]) := by
  rfl

/-- C8: for every already-resolved configuration object passed to the Run
Coordinator, configuration resolution returns it unchanged and performs no
loader call; the Configuration Loader is invoked exactly when a string
reference is given. -/
theorem resolve_config_passthrough (env : Env) (c : Config) :
    resolve_config env (ConfigInput.resolved c) = Except.ok c ∧
    resolve_config_events (ConfigInput.resolved c) = [] ∧
    ∀ s : String,
      resolve_config env (ConfigInput.reference s) = env.configLoad s ∧
      resolve_config_events (ConfigInput.reference s) = [Event.configLoad s] := by
  exact ⟨rfl, rfl, fun _ => ⟨rfl, rfl⟩⟩

/-- C4: when `path` is `None`, `train` returns `persisted_path = None` on
success, never emits a persistence call, and the persist stage itself never
turns the absent path into an error: a successful pre-persist pipeline
yields a successful result. -/
theorem train_no_output_path_no_persist (env : Env) (nlu_config : ConfigInput)
    (data : String) (fm st : Option String) (cb : Option ComponentBuilder)
    (ep : Option EndpointConfig) (kwargs : Kwargs) :
    (∀ t i p, (train env nlu_config data none fm st cb ep kwargs).1 =
        Except.ok (t, i, p) → p = none) ∧
    (∀ q, Event.persist q ∉ (train env nlu_config data none fm st cb ep kwargs).2) ∧
    (∀ c t pr td i, resolve_config env nlu_config = Except.ok c →
      env.trainerNew c cb = Except.ok t →
      create_persistor env st = Except.ok pr →
      select_training_data env ep data c.language = Except.ok td →
      env.trainerTrain t td kwargs = Except.ok i →
      (train env nlu_config data none fm st cb ep kwargs).1 =
        Except.ok (t, i, none)) := by
  refine ⟨?_, ?_, ?_⟩
  · rcases nlu_config with s | c <;>
    rcases st with _ | s0 <;>
    rcases ep with _ | ep0 <;>
    simp only [train, resolve_config, resolve_config_events, create_persistor,
      create_persistor_events, select_training_data, select_training_data_events] <;>
    · intro t i p h
      repeat' split at h
      all_goals simp_all
  · rcases nlu_config with s | c <;>
    rcases st with _ | s0 <;>
    rcases ep with _ | ep0 <;>
    simp only [train, resolve_config, resolve_config_events, create_persistor,
      create_persistor_events, select_training_data, select_training_data_events] <;>
    · intro q
      repeat' split
      all_goals simp_all
  · intro c t pr td i h1 h2 h3 h4 h5
    simp [train, h1, h2, h3, h4, h5]

/-- C10: an empty-string output path is falsy in Python, so `train` with
`path = ""` skips persistence entirely: `persisted_path = None` on success
and no persistence call is ever emitted. -/
theorem train_empty_output_path_no_persist (env : Env) (nlu_config : ConfigInput)
    (data : String) (fm st : Option String) (cb : Option ComponentBuilder)
    (ep : Option EndpointConfig) (kwargs : Kwargs) :
    (∀ t i p, (train env nlu_config data (some "") fm st cb ep kwargs).1 =
        Except.ok (t, i, p) → p = none) ∧
    (∀ q, Event.persist q ∉ (train env nlu_config data (some "") fm st cb ep kwargs).2) := by
  constructor
  · rcases nlu_config with s | c <;>
    rcases st with _ | s0 <;>
    rcases ep with _ | ep0 <;>
    simp only [train, resolve_config, resolve_config_events, create_persistor,
      create_persistor_events, select_training_data, select_training_data_events] <;>
    · intro t i p h
      repeat' split at h
      all_goals simp_all [String.isEmpty]
  · rcases nlu_config with s | c <;>
    rcases st with _ | s0 <;>
    rcases ep with _ | ep0 <;>
    simp only [train, resolve_config, resolve_config_events, create_persistor,
      create_persistor_events, select_training_data, select_training_data_events] <;>
    · intro q
      repeat' split
      all_goals simp_all [String.isEmpty]

/-- C5: when a remote endpoint descriptor is supplied, training data is
acquired from the endpoint only: the selector delegates to
`load_data_from_endpoint` for every language, `load_data` is never called
during the run (no such event in the trace), and a successful run did call
the endpoint loader. -/
theorem train_remote_endpoint_precedence (env : Env) (nlu_config : ConfigInput)
    (data : String) (path fm st : Option String) (cb : Option ComponentBuilder)
    (ep : EndpointConfig) (kwargs : Kwargs) :
    (∀ lang, select_training_data env (some ep) data lang =
      env.loadDataFromEndpoint ep lang) ∧
    (∀ d, Event.loadData d ∉ (train env nlu_config data path fm st cb (some ep) kwargs).2) ∧
    (∀ r, (train env nlu_config data path fm st cb (some ep) kwargs).1 = Except.ok r →
      Event.loadDataFromEndpoint ∈ (train env nlu_config data path fm st cb (some ep) kwargs).2) := by
  refine ⟨fun _ => rfl, ?_, ?_⟩
  · rcases nlu_config with s | c <;>
    rcases st with _ | s0 <;>
    rcases path with _ | p <;>
    simp only [train, resolve_config, resolve_config_events, create_persistor,
      create_persistor_events, select_training_data, select_training_data_events] <;>
    · intro d
      repeat' split
      all_goals simp_all
  · rcases nlu_config with s | c <;>
    rcases st with _ | s0 <;>
    rcases path with _ | p <;>
    simp only [train, resolve_config, resolve_config_events, create_persistor,
      create_persistor_events, select_training_data, select_training_data_events] <;>
    · intro r h
      repeat' split at h
      all_goals simp_all

/-- C7: persistor construction precedes data acquisition.  When the storage
backend identifier is unrecognized (`get_persistor` raises) and the run has
reached that step (configuration already resolved, trainer constructed),
`train` stops with exactly that error and its trace contains no data
acquisition call at all — only trainer construction and the failed
persistor resolution. -/
theorem train_persistor_failure_before_data (env : Env) (c : Config) (data : String)
    (path fm : Option String) (s : String) (cb : Option ComponentBuilder)
    (ep : Option EndpointConfig) (kwargs : Kwargs) (t : Trainer) (e : PyException)
    (ht : env.trainerNew c cb = Except.ok t)
    (hp : env.getPersistor s = Except.error e) :
    train env (ConfigInput.resolved c) data path fm (some s) cb ep kwargs =
      (Except.error e, [Event.trainerNew, Event.getPersistor s]) := by
  simp [train, resolve_config, resolve_config_events, create_persistor,
    create_persistor_events, ht, hp, Except.map]

/-- C2: `do_train_in_worker` forwards its parameters to `train` (with no
endpoint and no extra keyword arguments, exactly as in the source) and on
success returns only the third component, `persisted_path`, of `train`'s
result triple. -/
theorem do_train_in_worker_returns_persisted_path (env : Env) (cfg : ConfigInput)
    (data : String) (path fm st : Option String) (cb : Option ComponentBuilder)
    (t : Trainer) (i : Interpreter) (p : Option String)
    (h : (train env cfg data path fm st cb none []).1 = Except.ok (t, i, p)) :
    (do_train_in_worker env cfg data path fm st cb).1 = Except.ok p := by
  rcases htr : train env cfg data path fm st cb none [] with ⟨res, evs⟩
  rw [htr] at h
  simp only [do_train_in_worker, htr]
  simp only at h
  subst h
  rfl

/-- C1 counterexample: with an underlying failure whose `args` tuple is
empty (`ValueError()`), a run through `do_train_in_worker` does fail inside
`train`, yet the wrapper does not raise a `TrainingException` — the
unguarded `exception.args[0]` in the constructor raises `IndexError`
instead, so the claimed translation does not happen for this failure. -/
theorem do_train_in_worker_translation_cex :
    (train envNoArgs (ConfigInput.resolved cfg0) "d" (some "out") none none none none []).1 =
      Except.error ⟨"ValueError", []⟩ ∧
    (do_train_in_worker envNoArgs (ConfigInput.resolved cfg0) "d" (some "out") none none none).1 =
      Except.error (WorkerError.py indexError) ∧
    ∀ te : TrainingException,
      (do_train_in_worker envNoArgs (ConfigInput.resolved cfg0) "d" (some "out") none none none).1 ≠
        Except.error (WorkerError.trainingException te) := by
  refine ⟨rfl, rfl, fun te h => ?_⟩
  exact WorkerError.noConfusion (Except.error.inj h)

/-- C1 (amended): for every underlying failure that carries at least one
descriptive argument, `do_train_in_worker` raises a `TrainingException`
whose `message` equals that first argument and whose failed-target path
equals the `path` given to the run. -/
theorem do_train_in_worker_translation_fidelity (env : Env) (cfg : ConfigInput)
    (data : String) (path fm st : Option String) (cb : Option ComponentBuilder)
    (e : PyException) (a : String) (rest : List String)
    (he : (train env cfg data path fm st cb none []).1 = Except.error e)
    (ha : e.args = a :: rest) :
    (do_train_in_worker env cfg data path fm st cb).1 =
      Except.error (WorkerError.trainingException ⟨path, some a⟩) := by
  rcases htr : train env cfg data path fm st cb none [] with ⟨res, evs⟩
  rw [htr] at he
  simp only at he
  subst he
  simp [do_train_in_worker, htr, TrainingException.init, ha]

/-- C3 counterexample: the invariant "`message` is always non-empty" fails.
An underlying `ValueError("")` whose first argument is the empty string is
translated into a `TrainingException` whose `message` is the empty
string. -/
theorem trainingException_empty_message_cex :
    (do_train_in_worker envEmptyArg (ConfigInput.resolved cfg0) "d" (some "out") none none none).1 =
      Except.error (WorkerError.trainingException ⟨some "out", some ""⟩) ∧
    String.isEmpty "" = true := ⟨rfl, rfl⟩

/-- C3 (amended): every `TrainingException` produced at the worker boundary
carries, verbatim, the first argument of the original triggering failure as
its `message` (and the run's output path as its failed-target field) —
never a synthesized text — but that argument, and hence the message, may be
empty. -/
theorem trainingException_message_from_first_arg (env : Env) (cfg : ConfigInput)
    (data : String) (path fm st : Option String) (cb : Option ComponentBuilder)
    (e : PyException) (te : TrainingException)
    (he : (train env cfg data path fm st cb none []).1 = Except.error e)
    (hw : (do_train_in_worker env cfg data path fm st cb).1 =
      Except.error (WorkerError.trainingException te)) :
    ∃ a rest, e.args = a :: rest ∧ te.message = some a ∧
      te.failed_target_project = path := by
  rcases htr : train env cfg data path fm st cb none [] with ⟨res, evs⟩
  rw [htr] at he
  simp only at he
  subst he
  rw [do_train_in_worker] at hw
  simp only [htr] at hw
  rcases ha : e.args with _ | ⟨a, rest⟩ <;>
    simp only [TrainingException.init, ha] at hw
  · exact absurd (Except.error.inj hw) (by simp)
  · refine ⟨a, rest, rfl, ?_, ?_⟩ <;>
    · have := Except.error.inj hw
      cases this
      rfl

/-- C9: when the caught underlying failure has an empty `args` tuple,
constructing the `TrainingException` itself fails — the unguarded
`exception.args[0]` raises `IndexError`, so the wrapper lets `IndexError`
escape instead of a `TrainingException`; and a `TrainingException` built
with no `exception` has no `message` attribute at all. -/
theorem trainingException_empty_args_indexError (env : Env) (cfg : ConfigInput)
    (data : String) (path fm st : Option String) (cb : Option ComponentBuilder)
    (e : PyException)
    (he : (train env cfg data path fm st cb none []).1 = Except.error e)
    (ha : e.args = []) :
    TrainingException.init path (some e) = Except.error indexError ∧
    (do_train_in_worker env cfg data path fm st cb).1 =
      Except.error (WorkerError.py indexError) ∧
    ∀ q : Option String,
      TrainingException.init q none = Except.ok ⟨q, none⟩ := by
  have hinit : TrainingException.init path (some e) = Except.error indexError := by
    simp [TrainingException.init, ha]
  refine ⟨hinit, ?_, fun q => rfl⟩
  rcases htr : train env cfg data path fm st cb none [] with ⟨res, evs⟩
  rw [htr] at he
  simp only at he
  subst he
  simp [do_train_in_worker, htr, hinit]

/-- C6: `train` performs no failure translation and catches nothing — for
each step of the sequence (configuration loading, trainer construction,
persistor resolution, data acquisition from either source, engine training,
persistence), when that step raises and the preceding steps succeeded, the
run's result is exactly the raising step's error, unmodified. -/
theorem train_propagates_collaborator_errors (env : Env) (data : String)
    (path fm : Option String) (cb : Option ComponentBuilder)
    (ep : Option EndpointConfig) (kwargs : Kwargs) :
    (∀ s e st, env.configLoad s = Except.error e →
      (train env (ConfigInput.reference s) data path fm st cb ep kwargs).1 =
        Except.error e) ∧
    (∀ c e st, env.trainerNew c cb = Except.error e →
      (train env (ConfigInput.resolved c) data path fm st cb ep kwargs).1 =
        Except.error e) ∧
    (∀ c t s e, env.trainerNew c cb = Except.ok t →
      env.getPersistor s = Except.error e →
      (train env (ConfigInput.resolved c) data path fm (some s) cb ep kwargs).1 =
        Except.error e) ∧
    (∀ c t ep0 e, env.trainerNew c cb = Except.ok t →
      env.loadDataFromEndpoint ep0 c.language = Except.error e →
      (train env (ConfigInput.resolved c) data path fm none cb (some ep0) kwargs).1 =
        Except.error e) ∧
    (∀ c t e, env.trainerNew c cb = Except.ok t →
      env.loadData data c.language = Except.error e →
      (train env (ConfigInput.resolved c) data path fm none cb none kwargs).1 =
        Except.error e) ∧
    (∀ c t td e, env.trainerNew c cb = Except.ok t →
      env.loadData data c.language = Except.ok td →
      env.trainerTrain t td kwargs = Except.error e →
      (train env (ConfigInput.resolved c) data path fm none cb none kwargs).1 =
        Except.error e) ∧
    (∀ c t td i p e, env.trainerNew c cb = Except.ok t →
      env.loadData data c.language = Except.ok td →
      env.trainerTrain t td kwargs = Except.ok i →
      p.isEmpty = false →
      env.trainerPersist t p none fm = Except.error e →
      (train env (ConfigInput.resolved c) data (some p) fm none cb none kwargs).1 =
        Except.error e) := by
  refine ⟨?_, ?_, ?_, ?_, ?_, ?_, ?_⟩
  · intro s e st h
    simp [train, resolve_config, h]
  · intro c e st h
    simp [train, resolve_config, h]
  · intro c t s e h1 h2
    simp [train, resolve_config, create_persistor, h1, h2, Except.map]
  · intro c t ep0 e h1 h2
    simp [train, resolve_config, create_persistor, select_training_data, h1, h2]
  · intro c t e h1 h2
    simp [train, resolve_config, create_persistor, select_training_data, h1, h2]
  · intro c t td e h1 h2 h3
    simp [train, resolve_config, create_persistor, select_training_data, h1, h2, h3]
  · intro c t td i p e h1 h2 h3 h4 h5
    simp [train, resolve_config, create_persistor, select_training_data,
      h1, h2, h3, h4, h5]

/-- Concrete run for C4: no output path means a successful result with
`persisted_path = None` and no persistence call in the trace. -/
theorem train_no_output_path_no_persist_witness :
    (train envOk (ConfigInput.resolved cfg0) "d" none none none none none []).1 =
      Except.ok (⟨1⟩, ⟨5⟩, none) ∧
    Event.persist "out" ∉
      (train envOk (ConfigInput.resolved cfg0) "d" none none none none none []).2 :=
  ⟨(train_no_output_path_no_persist envOk (ConfigInput.resolved cfg0) "d"
      none none none none []).2.2 cfg0 ⟨1⟩ none ⟨4⟩ ⟨5⟩ rfl rfl rfl rfl rfl,
   (train_no_output_path_no_persist envOk (ConfigInput.resolved cfg0) "d"
      none none none none []).2.1 "out"⟩

/-- Concrete run for C10: an empty-string output path leads to a successful
result whose `persisted_path` is `None`, and no persistence call occurs. -/
theorem train_empty_output_path_no_persist_witness :
    (none : Option String) = none ∧
    Event.persist "m" ∉
      (train envOk (ConfigInput.resolved cfg0) "d" (some "") none none none none []).2 :=
  ⟨(train_empty_output_path_no_persist envOk (ConfigInput.resolved cfg0) "d"
      none none none none []).1 ⟨1⟩ ⟨5⟩ none rfl,
   (train_empty_output_path_no_persist envOk (ConfigInput.resolved cfg0) "d"
      none none none none []).2 "m"⟩

/-- Concrete run for C5: with a remote endpoint supplied, the local loader
is never called and the endpoint loader is. -/
theorem train_remote_endpoint_precedence_witness :
    Event.loadData "d" ∉
      (train envOk (ConfigInput.resolved cfg0) "d" none none none none (some ⟨"http"⟩) []).2 ∧
    Event.loadDataFromEndpoint ∈
      (train envOk (ConfigInput.resolved cfg0) "d" none none none none (some ⟨"http"⟩) []).2 :=
  ⟨(train_remote_endpoint_precedence envOk (ConfigInput.resolved cfg0) "d"
      none none none none ⟨"http"⟩ []).2.1 "d",
   (train_remote_endpoint_precedence envOk (ConfigInput.resolved cfg0) "d"
      none none none none ⟨"http"⟩ []).2.2 (⟨1⟩, ⟨5⟩, none) rfl⟩

/-- Concrete run for C7: an unknown storage backend makes the run stop at
persistor resolution, before any data acquisition. -/
theorem train_persistor_failure_before_data_witness :
    train envBadBackend (ConfigInput.resolved cfg0) "d" (some "out") none
        (some "unknown-backend") none none [] =
      (Except.error ⟨"PersistorResolutionError", ["unknown-backend"]⟩,
       [Event.trainerNew, Event.getPersistor "unknown-backend"]) :=
  train_persistor_failure_before_data envBadBackend cfg0 "d" (some "out") none
    "unknown-backend" none none [] ⟨1⟩
    ⟨"PersistorResolutionError", ["unknown-backend"]⟩ rfl rfl

/-- Concrete run for C2: on success the worker entry returns exactly the
`persisted_path` component of `train`'s result. -/
theorem do_train_in_worker_returns_persisted_path_witness :
    (do_train_in_worker envOk (ConfigInput.resolved cfg0) "d" (some "out")
        none none none).1 = Except.ok (some "out/model") :=
  do_train_in_worker_returns_persisted_path envOk (ConfigInput.resolved cfg0)
    "d" (some "out") none none none ⟨1⟩ ⟨5⟩ (some "out/model") rfl

/-- Concrete run for the amended C1: an engine failure with message
"bad feature X" is translated into a `TrainingException` carrying that
message and the run's output path. -/
theorem do_train_in_worker_translation_fidelity_witness :
    (do_train_in_worker envTrainFails (ConfigInput.resolved cfg0) "d" (some "out")
        none none none).1 =
      Except.error (WorkerError.trainingException ⟨some "out", some "bad feature X"⟩) :=
  do_train_in_worker_translation_fidelity envTrainFails (ConfigInput.resolved cfg0)
    "d" (some "out") none none none ⟨"DomainError", ["bad feature X"]⟩
    "bad feature X" [] rfl rfl

/-- Concrete run for the amended C3: the translated message is exactly the
underlying failure's first argument. -/
theorem trainingException_message_from_first_arg_witness :
    ∃ a rest,
      (⟨"ValueError", [""]⟩ : PyException).args = a :: rest ∧
      (⟨some "out", some ""⟩ : TrainingException).message = some a ∧
      (⟨some "out", some ""⟩ : TrainingException).failed_target_project = some "out" :=
  trainingException_message_from_first_arg envEmptyArg (ConfigInput.resolved cfg0)
    "d" (some "out") none none none ⟨"ValueError", [""]⟩ ⟨some "out", some ""⟩ rfl rfl

/-- Concrete run for C9: an argument-less underlying failure makes the
`TrainingException` constructor raise `IndexError`, which escapes the
wrapper; a constructor call without an exception leaves `message` unset. -/
theorem trainingException_empty_args_indexError_witness :
    TrainingException.init (some "out") (some ⟨"ValueError", []⟩) =
      Except.error indexError ∧
    (do_train_in_worker envNoArgs (ConfigInput.resolved cfg0) "d" (some "out")
        none none none).1 = Except.error (WorkerError.py indexError) ∧
    TrainingException.init (some "x") none = Except.ok ⟨some "x", none⟩ :=
  ⟨(trainingException_empty_args_indexError envNoArgs (ConfigInput.resolved cfg0)
      "d" (some "out") none none none ⟨"ValueError", []⟩ rfl rfl).1,
   (trainingException_empty_args_indexError envNoArgs (ConfigInput.resolved cfg0)
      "d" (some "out") none none none ⟨"ValueError", []⟩ rfl rfl).2.1,
   (trainingException_empty_args_indexError envNoArgs (ConfigInput.resolved cfg0)
      "d" (some "out") none none none ⟨"ValueError", []⟩ rfl rfl).2.2 (some "x")⟩

/-- Concrete run for C6: a failure raised by the engine's training step
surfaces from `train` with its type and arguments unmodified. -/
theorem train_propagates_collaborator_errors_witness :
    (train envTrainFails (ConfigInput.resolved cfg0) "d" (some "out") none none
        none none []).1 = Except.error ⟨"DomainError", ["bad feature X"]⟩ :=
  (train_propagates_collaborator_errors envTrainFails "d" (some "out") none
      none none []).2.2.2.2.2.1 cfg0 ⟨1⟩ ⟨4⟩
    ⟨"DomainError", ["bad feature X"]⟩ rfl rfl rfl
